import Mathlib

/-!
Verification development for the `pupetteer-server` HTTP-to-PDF service
(`src/app.ts`, `src/pdf-options/presets/default.ts`).

The embedding models the request pipeline of `src/app.ts`:
  * the base64 image payload produced by `getImageBase64` (app.ts lines 225-245),
    which is Node's standard base64 encoding of the fetched bytes;
  * the cheerio document interface as used by the handlers (load a fragment,
    select all `img` elements, read the first selected element's `src`
    attribute, write an attribute on every selected element, serialize the
    whole document back to a string) — cheerio is an external library, so it is
    embedded at exactly the interface the handlers use;
  * the `GET /` handler (app.ts lines 117-177) and the `POST /` handler
    (app.ts lines 179-219), with the externally-performed effects (page
    navigation, network fetch, `page.setContent`, `page.pdf`, leasing a page
    from the `hc-pages` pool) represented by an environment of oracles, and the
    order in which those effects happen recorded as an event trace.

Bytes are `Nat` values below 256; byte buffers are `List Nat`.
-/

/-! ### Base64 (Node `Buffer.toString('base64')` as used by `getImageBase64`) -/

/-- Code point of the base64 alphabet character for a sextet value `n < 64`:
`A`-`Z` for 0-25, `a`-`z` for 26-51, `0`-`9` for 52-61, `+` for 62, `/` for 63. -/
def sextet (n : Nat) : Nat :=
  if n < 26 then n + 65
  else if n < 52 then n + 71
  else if n < 62 then n - 4
  else if n = 62 then 43
  else 47

/-- Standard base64 encoding of a byte list, as a list of character codes
(with `=` padding, code 61), three bytes to four characters. -/
def base64EncodeCodes : List Nat → List Nat
  | a :: b :: c :: rest =>
      sextet (a / 4) :: sextet ((a % 4) * 16 + b / 16) :: sextet ((b % 16) * 4 + c / 64)
        :: sextet (c % 64) :: base64EncodeCodes rest
  | [a, b] => [sextet (a / 4), sextet ((a % 4) * 16 + b / 16), sextet ((b % 16) * 4), 61]
  | [a] => [sextet (a / 4), sextet ((a % 4) * 16), 61, 61]
  | [] => []

/-- Sextet value of a base64 alphabet character code (inverse of `sextet`). -/
def b64Val (code : Nat) : Nat :=
  if 65 ≤ code ∧ code ≤ 90 then code - 65
  else if 97 ≤ code ∧ code ≤ 122 then code - 71
  else if 48 ≤ code ∧ code ≤ 57 then code + 4
  else if code = 43 then 62
  else 63

/-- Standard base64 decoding: four characters back to three bytes, with the
`=`-padded final quantum giving one or two bytes. -/
def base64DecodeCodes : List Nat → List Nat
  | c0 :: c1 :: c2 :: c3 :: rest =>
      if c2 = 61 then [b64Val c0 * 4 + b64Val c1 / 16]
      else if c3 = 61 then
        [b64Val c0 * 4 + b64Val c1 / 16, (b64Val c1 % 16) * 16 + b64Val c2 / 4]
      else
        (b64Val c0 * 4 + b64Val c1 / 16)
          :: ((b64Val c1 % 16) * 16 + b64Val c2 / 4)
          :: ((b64Val c2 % 4) * 64 + b64Val c3)
          :: base64DecodeCodes rest
  | _ => []

theorem b64Val_sextet : ∀ n, n < 64 → b64Val (sextet n) = n := by decide

theorem sextet_ne_eq_pad : ∀ n, n < 64 → sextet n ≠ 61 := by decide

theorem sextet_lt_128 : ∀ n, sextet n < 128 := by
  intro n
  unfold sextet
  repeat' split
  all_goals omega

/-- Base64 decoding is a left inverse of base64 encoding on byte lists. -/
theorem base64_round_trip :
    ∀ bs : List Nat, (∀ b ∈ bs, b < 256) →
      base64DecodeCodes (base64EncodeCodes bs) = bs := by
  intro bs
  induction bs using base64EncodeCodes.induct with
  | case1 a b c rest ih =>
      intro h
      have ha : a < 256 := h a (by simp)
      have hb : b < 256 := h b (by simp)
      have hc : c < 256 := h c (by simp)
      have h0 : a / 4 < 64 := by omega
      have h1 : (a % 4) * 16 + b / 16 < 64 := by omega
      have h2 : (b % 16) * 4 + c / 64 < 64 := by omega
      have h3 : c % 64 < 64 := by omega
      rw [base64EncodeCodes, base64DecodeCodes,
        if_neg (sextet_ne_eq_pad _ h2), if_neg (sextet_ne_eq_pad _ h3),
        b64Val_sextet _ h0, b64Val_sextet _ h1, b64Val_sextet _ h2, b64Val_sextet _ h3,
        ih (fun x hx => h x (by simp [hx]))]
      have e0 : (a / 4) * 4 + ((a % 4) * 16 + b / 16) / 16 = a := by omega
      have e1 : (((a % 4) * 16 + b / 16) % 16) * 16 + ((b % 16) * 4 + c / 64) / 4 = b := by
        omega
      have e2 : (((b % 16) * 4 + c / 64) % 4) * 64 + c % 64 = c := by omega
      rw [e0, e1, e2]
  | case2 a b =>
      intro h
      have ha : a < 256 := h a (by simp)
      have hb : b < 256 := h b (by simp)
      have h0 : a / 4 < 64 := by omega
      have h1 : (a % 4) * 16 + b / 16 < 64 := by omega
      have h2 : (b % 16) * 4 < 64 := by omega
      rw [base64EncodeCodes, base64DecodeCodes]
      rw [if_neg (sextet_ne_eq_pad _ h2), if_pos rfl,
        b64Val_sextet _ h0, b64Val_sextet _ h1, b64Val_sextet _ h2]
      have e0 : (a / 4) * 4 + ((a % 4) * 16 + b / 16) / 16 = a := by omega
      have e1 : (((a % 4) * 16 + b / 16) % 16) * 16 + ((b % 16) * 4) / 4 = b := by omega
      rw [e0, e1]
  | case3 a =>
      intro h
      have ha : a < 256 := h a (by simp)
      have h0 : a / 4 < 64 := by omega
      have h1 : (a % 4) * 16 < 64 := by omega
      rw [base64EncodeCodes, base64DecodeCodes]
      rw [if_pos rfl, b64Val_sextet _ h0, b64Val_sextet _ h1]
      have e0 : (a / 4) * 4 + ((a % 4) * 16) / 16 = a := by omega
      rw [e0]
  | case4 => intro _; rfl

/-- Every character code produced by the encoder is below 128 (the base64
alphabet plus the `=` pad are all ASCII). -/
theorem base64EncodeCodes_lt_128 :
    ∀ bs : List Nat, ∀ x ∈ base64EncodeCodes bs, x < 128 := by
  intro bs
  induction bs using base64EncodeCodes.induct with
  | case1 a b c rest ih =>
      intro x hx
      rw [base64EncodeCodes] at hx
      simp only [List.mem_cons] at hx
      rcases hx with h | h | h | h | h
      · exact h ▸ sextet_lt_128 _
      · exact h ▸ sextet_lt_128 _
      · exact h ▸ sextet_lt_128 _
      · exact h ▸ sextet_lt_128 _
      · exact ih x h
  | case2 a b =>
      intro x hx
      rw [base64EncodeCodes] at hx
      fin_cases hx <;> first | exact sextet_lt_128 _ | omega
  | case3 a =>
      intro x hx
      rw [base64EncodeCodes] at hx
      fin_cases hx <;> first | exact sextet_lt_128 _ | omega
  | case4 =>
      intro x hx
      rw [base64EncodeCodes] at hx
      exact absurd hx (List.not_mem_nil x)

theorem char_toNat_ofNat_lt_128 : ∀ n, n < 128 → (Char.ofNat n).toNat = n := by decide

/-- The base64 payload string built by `getImageBase64` (app.ts line 240,
`imgBuffer.toString('base64')`). -/
def base64String (bs : List Nat) : String :=
  String.mk ((base64EncodeCodes bs).map Char.ofNat)

/-- Base64-decoding a payload string back to bytes. -/
def base64DecodeString (s : String) : List Nat :=
  base64DecodeCodes (s.data.map Char.toNat)

/-- Decoding the payload string produced from a byte buffer returns exactly
that buffer. -/
theorem base64String_round_trip (bs : List Nat) (h : ∀ b ∈ bs, b < 256) :
    base64DecodeString (base64String bs) = bs := by
  unfold base64DecodeString base64String
  have hdata : (String.mk ((base64EncodeCodes bs).map Char.ofNat)).data
      = (base64EncodeCodes bs).map Char.ofNat := rfl
  have hmap := List.map_congr_left (f := Char.toNat ∘ Char.ofNat) (g := id)
    (l := base64EncodeCodes bs)
    (fun x hx => char_toNat_ofNat_lt_128 x (base64EncodeCodes_lt_128 bs x hx))
  rw [hdata, List.map_map, hmap, List.map_id]
  exact base64_round_trip bs h

/-! ### Cheerio document model

Cheerio is an external library; the handlers use it only through
`cheerio.load`, the selection `$('img')`, `.attr('src')` (read: first matched
element), `.attr('src', v)` (write: every matched element), and `$.html()`
(serialize the whole document).  A loaded document is modelled as the flat
sequence of its nodes; `img` elements are the nodes the `$('img')` selection
matches. -/

/-- A node of a loaded cheerio document. -/
inductive HtmlNode where
  | text (s : String)
  | img (attrs : List (String × String))
  | elem (tag : String) (attrs : List (String × String)) (inner : String)
deriving DecidableEq

/-- Attribute lists of all `img` elements, in document order — the cheerio
selection `$('img')`. -/
def imgAttrs (doc : List HtmlNode) : List (List (String × String)) :=
  doc.filterMap (fun n => match n with | .img a => some a | _ => none)

/-- Set attribute `name` to `v` in an attribute list (overwrite if present,
append otherwise) — cheerio's single-element `.attr(name, v)`. -/
def setAttr (attrs : List (String × String)) (name v : String) : List (String × String) :=
  if attrs.any (fun p => p.1 = name) then
    attrs.map (fun p => if p.1 = name then (name, v) else p)
  else attrs ++ [(name, v)]

/-- Write `src := v` on every `img` element of the document — cheerio's
`.attr('src', v)` on the `$('img')` selection. -/
def setImgSrcAll (doc : List HtmlNode) (v : String) : List HtmlNode :=
  doc.map (fun n => match n with | .img a => .img (setAttr a "src" v) | n => n)

/-- The `src` attribute of each `img` element, in document order. -/
def imgSrcList (doc : List HtmlNode) : List (Option String) :=
  (imgAttrs doc).map (fun a => a.lookup "src")

def serializeAttrs (attrs : List (String × String)) : String :=
  String.join (attrs.map (fun p => " " ++ p.1 ++ "=\x22" ++ p.2 ++ "\x22"))

def serializeNode : HtmlNode → String
  | .text s => s
  | .img a => "<img" ++ serializeAttrs a ++ ">"
  | .elem t a inner => "<" ++ t ++ serializeAttrs a ++ ">" ++ inner ++ "</" ++ t ++ ">"

/-- `$.html()` — cheerio (in document mode, as `cheerio.load` is called here)
serializes the full document, wrapping the loaded fragment in
`<html><head></head><body>…</body></html>`. -/
def serializeDoc (doc : List HtmlNode) : String :=
  "<html><head></head><body>" ++ String.join (doc.map serializeNode) ++ "</body></html>"

theorem lookup_overwrite (name v : String) :
    ∀ attrs : List (String × String), (attrs.any fun p => p.1 = name) = true →
      (attrs.map (fun p => if p.1 = name then (name, v) else p)).lookup name = some v := by
  intro attrs
  induction attrs with
  | nil => intro h; simp at h
  | cons p ps ih =>
      intro h
      obtain ⟨k, b⟩ := p
      simp only [List.any_cons, Bool.or_eq_true, decide_eq_true_eq] at h
      by_cases hp : k = name
      · simp [List.map_cons, if_pos hp, List.lookup_cons, hp]
      · have hne : (name == k) = false := beq_false_of_ne fun he => hp he.symm
        have hcond : ¬((k, b).1 = name) := hp
        simp only [List.map_cons, if_neg hcond, List.lookup_cons, hne]
        exact ih (by tauto)

theorem lookup_append_new (name v : String) :
    ∀ attrs : List (String × String), (attrs.any fun p => p.1 = name) = false →
      (attrs ++ [(name, v)]).lookup name = some v := by
  intro attrs
  induction attrs with
  | nil => simp [List.lookup_cons]
  | cons p ps ih =>
      intro h
      obtain ⟨k, b⟩ := p
      simp only [List.any_cons, Bool.or_eq_false_iff, decide_eq_false_iff_not] at h
      have hne : (name == k) = false := beq_false_of_ne fun he => h.1 he.symm
      simp only [List.cons_append, List.lookup_cons, hne]
      apply ih
      simp only [List.any_eq_false, decide_eq_true_eq]
      intro x hx he
      exact (List.any_eq_false.mp h.2) x hx (by simpa using he)

theorem lookup_setAttr_self (attrs : List (String × String)) (name v : String) :
    (setAttr attrs name v).lookup name = some v := by
  unfold setAttr
  split
  case isTrue h => exact lookup_overwrite name v attrs h
  case isFalse h =>
      exact lookup_append_new name v attrs (Bool.eq_false_iff.mpr h)

theorem imgAttrs_setImgSrcAll (doc : List HtmlNode) (v : String) :
    imgAttrs (setImgSrcAll doc v) = (imgAttrs doc).map (fun a => setAttr a "src" v) := by
  induction doc with
  | nil => rfl
  | cons n rest ih =>
      cases n <;> simp [imgAttrs, setImgSrcAll, List.filterMap_cons] at * <;> exact ih

/-- After the all-elements attribute write, every `img` element's `src` is the
written value. -/
theorem imgSrcList_setImgSrcAll (doc : List HtmlNode) (v : String) :
    imgSrcList (setImgSrcAll doc v) = List.replicate (imgAttrs doc).length (some v) := by
  unfold imgSrcList
  rw [imgAttrs_setImgSrcAll, List.map_map]
  induction imgAttrs doc with
  | nil => rfl
  | cons a rest ih =>
      simp only [List.map_cons, List.length_cons, List.replicate_succ, Function.comp_apply]
      rw [lookup_setAttr_self, ih]

/-! ### Render options data model (puppeteer `PDFOptions` as used by the app)
and the preset table of `src/pdf-options/presets/default.ts` -/

/-- `PDFMargin` (puppeteer): four independent margin distances. -/
structure PDFMargin where
  top : Option String := none
  bottom : Option String := none
  left : Option String := none
  right : Option String := none
deriving DecidableEq

/-- The fields of puppeteer's `PDFOptions` that the preset file and the
handlers use. Absent fields are `none`, mirroring optional object fields. -/
structure PDFOptions where
  format : Option String := none
  landscape : Option Bool := none
  margin : Option PDFMargin := none
  printBackground : Option Bool := none
  displayHeaderFooter : Option Bool := none
  headerTemplate : Option String := none
  footerTemplate : Option String := none
deriving DecidableEq

/-- `defaultMargin` of default.ts lines 13-18: the same configured distance on
all four sides (`DEFAULT_PDF_OPTION_MARGIN` comes from configuration, so it is
a parameter here). -/
def defaultMargin (m : String) : PDFMargin :=
  { top := some m, bottom := some m, left := some m, right := some m }

/-- `PresetPDFOptions` of default.ts lines 20-73: the preset name → options
table. `fmt`, `landscape`, `m` are the configured
`DEFAULT_PDF_OPTION_FORMAT`, `DEFAULT_PDF_OPTION_LANDSCAPE` and
`DEFAULT_PDF_OPTION_MARGIN` (config.ts is configuration, not in scope). -/
def presetPDFOptions (fmt : String) (ls : Bool) (m : String) :
    List (String × PDFOptions) :=
  [ ("DEFAULT",
      { format := some fmt, landscape := some ls, margin := some (defaultMargin m),
        printBackground := some true }),
    ("A4",
      { format := some "a4", margin := some (defaultMargin m),
        printBackground := some true }),
    ("A3",
      { format := some "a3", margin := some (defaultMargin m),
        printBackground := some true }),
    ("A4L",
      { format := some "a4", landscape := some true, margin := some (defaultMargin m),
        printBackground := some true }),
    ("A3L",
      { format := some "a3", landscape := some true, margin := some (defaultMargin m),
        printBackground := some true }),
    ("nomargin",
      { format := some "a4", landscape := some false,
        margin := some { top := some "0mm", bottom := some "0mm",
                         left := some "0mm", right := some "0mm" },
        printBackground := some true }),
    ("bottommargin",
      { format := some "a4", landscape := some false,
        margin := some { top := some "0mm", bottom := some "0.5cm",
                         left := some "0mm", right := some "0mm" },
        printBackground := some true }),
    ("landscape",
      { format := some "a4", landscape := some true,
        margin := some { top := some "0mm", bottom := some "0mm",
                         left := some "0mm", right := some "0mm" },
        printBackground := some true }),
    ("A4headerfooter",
      { format := some "a4",
        margin := some { top := some "40mm", bottom := some "30mm",
                         left := some "0.5cm", right := some "0.5cm" },
        printBackground := some true, displayHeaderFooter := some true }) ]

/-- Modelled from the spec: the preset-resolution plugin
(`./plugins/pdf-options`, registered at app.ts line 94, providing
`server.getPDFOptions`) is not part of src/. Per the spec (§4.1) resolution is
a pure, side-effect-free read of the loaded table, and per §3 per-request
customization always operates on a copy of the stored record. In this
embedding records are immutable values, so returning the looked-up record is
exactly the copy semantics the spec prescribes. For a name not in the table
the spec leaves the policy open (reject or fall back, §9); the default
preset's record is used as the fallback, one of the two sanctioned policies
(the claims settled here do not depend on this choice). -/
def getPDFOptions (presets : List (String × PDFOptions)) (defaultName name : String) :
    PDFOptions :=
  (presets.lookup name).getD ((presets.lookup defaultName).getD {})

/-! ### Effects, the environment of external collaborators, and event traces -/

/-- Externally observable effects of a request, in the order the handler
performs them. `lease`/`release` delimit the `server.runOnPage` job (the
rendering-context pool); `goto`, `setContent` and `renderPdf` are the
puppeteer page operations; `fetch` is the axios GET of `getImageBase64`;
`resolveOptions` is the `server.getPDFOptions` call. -/
inductive Event where
  | lease
  | goto (url : String)
  | resolveOptions (name : String)
  | fetch (url : String)
  | setContent
  | renderPdf
  | release
deriving DecidableEq

/-- The external collaborators: cheerio's parser, the network (axios), and a
leased puppeteer page's operations. Failures of the fallible ones are the
thrown errors the handler's `catch` sees, as `Except` values. -/
structure Env where
  parse : String → List HtmlNode
  fetch : String → Except String (List Nat)
  navigate : String → Except String Unit
  setContent : String → Except String Unit
  pdf : PDFOptions → Except String (List Nat)

def isLease : Event → Bool | .lease => true | _ => false
def isGoto : Event → Bool | .goto _ => true | _ => false
def isFetch : Event → Bool | .fetch _ => true | _ => false
def isRender : Event → Bool | .renderPdf => true | _ => false
def isRelease : Event → Bool | .release => true | _ => false
def isResolve : Event → Bool | .resolveOptions _ => true | _ => false

/-! ### The image-inlining step (app.ts lines 136-150 / 152-166, and
`getImageBase64`, lines 225-245) -/

/-- `getImageBase64` (app.ts lines 225-245): axios GET of the image URL (one
network fetch), base64-encode the received bytes; a failed retrieval rethrows
the raw transport error. Returns the result together with the fetch event it
performs. -/
def getImageBase64 (env : Env) (url : String) : Except String String × List Event :=
  match env.fetch url with
  | .ok data => (.ok (base64String data), [.fetch url])
  | .error e => (.error e, [.fetch url])

/-- The `data:image/png;base64,<payload>` URI built at app.ts line 146/162. -/
def dataUri (bs : List Nat) : String :=
  "data:image/png;base64," ++ base64String bs

/-- The header/footer block of the GET handler (app.ts lines 139-149):
load the fragment, select `$('img')`; if the selection is non-empty and its
first element has a `src`, fetch it, base64-inline it into every selected
element; serialize the document with `$.html()`. A fetch failure propagates
(the `await` rethrows). -/
def inlineFragment (env : Env) (frag : String) : Except String String × List Event :=
  match imgAttrs (env.parse frag) with
  | [] => (.ok (serializeDoc (env.parse frag)), [])
  | a :: _ =>
    match a.lookup "src" with
    | none => (.ok (serializeDoc (env.parse frag)), [])
    | some imgUrl =>
      match (getImageBase64 env imgUrl).1 with
      | .ok imgBase64 =>
          (.ok (serializeDoc (setImgSrcAll (env.parse frag)
             ("data:image/png;base64," ++ imgBase64))),
           (getImageBase64 env imgUrl).2)
      | .error e => (.error e, (getImageBase64 env imgUrl).2)

/-! ### HTTP response model and the two route handlers -/

/-- The headers built by `createPDFHttpHeader` (app.ts lines 44-51). -/
structure PDFHttpHeader where
  contentType : String
  contentLength : Nat
  cacheControl : String
  pragma : String
  expires : Nat
deriving DecidableEq

/-- `createPDFHttpHeader` (app.ts lines 44-51): content type/length plus the
anti-cache headers (`Expires: 0` is an already-expired expiry value). -/
def createPDFHttpHeader (buffer : List Nat) : PDFHttpHeader :=
  { contentType := "application/pdf"
    contentLength := buffer.length
    cacheControl := "no-cache, no-store, must-revalidate"
    pragma := "no-cache"
    expires := 0 }

/-- A response body: either raw PDF bytes or a JSON error object. The GET
handler's error object carries the failing `url` field (app.ts line 174); the
POST handler's does not (app.ts line 216); validation errors carry none. -/
inductive RespBody where
  | pdf (bytes : List Nat)
  | jsonError (error : String) (url : Option String)
deriving DecidableEq

structure Response where
  status : Nat
  headers : Option PDFHttpHeader
  body : RespBody
deriving DecidableEq

/-- Everything observable about one handled request: the HTTP response, the
trace of external effects, the preset table afterwards, and the options
record the handler passed to `page.pdf` (when it got that far). -/
structure HandlerResult where
  resp : Response
  events : List Event
  presetsAfter : List (String × PDFOptions)
  optsUsed : Option PDFOptions
deriving DecidableEq

/-- The header/footer guard of both handlers: `const header = … ?? false`
followed by `if (header)` — active exactly when the field is present and
non-empty. When active on the GET path, run the inlining block. -/
def maybeInline (env : Env) (frag : Option String) :
    Except String (Option String) × List Event :=
  match frag with
  | none => (.ok none, [])
  | some s =>
    if s = "" then (.ok none, [])
    else
      match inlineFragment env s with
      | (.ok t, evs) => (.ok (some t), evs)
      | (.error e, evs) => (.error e, evs)

/-- app.ts lines 136-149: inside `if (header)` the handler sets
`displayHeaderFooter = true` and assigns the (inlined) serialization as
`headerTemplate`. -/
def applyHeader (opts : PDFOptions) : Option String → PDFOptions
  | none => opts
  | some t => { opts with displayHeaderFooter := some true, headerTemplate := some t }

/-- app.ts lines 152-165, footer counterpart of `applyHeader`. -/
def applyFooter (opts : PDFOptions) : Option String → PDFOptions
  | none => opts
  | some t => { opts with displayHeaderFooter := some true, footerTemplate := some t }

/-- Query parameters of `GET /` (`GetQuerystring` of the app's types). -/
structure GetQuerystring where
  url : Option String := none
  pdf_option : Option String := none
  header : Option String := none
  footer : Option String := none
deriving DecidableEq

/-- Body fields of `POST /` (`PostBody` of the app's types). -/
structure PostBody where
  html : Option String := none
  pdf_option : Option String := none
  header : Option String := none
  footer : Option String := none
deriving DecidableEq

/-- The `GET /` handler (app.ts lines 117-177).

Order of operations, exactly as in the source: validate `url` (400 before any
effect); inside the `runOnPage` job (delimited by `lease`/`release`, which the
pool guarantees on every exit path): `page.goto(url)` first, then
`server.getPDFOptions`, then the header block, then the footer block, then
`page.pdf`. Any thrown error is caught by the surrounding `try`/`catch`,
which answers 500 with a JSON body carrying the error and the failing URL. -/
def handleGet (env : Env) (presets : List (String × PDFOptions)) (defaultName : String)
    (q : GetQuerystring) : HandlerResult :=
  match q.url with
  | none => ⟨⟨400, none, .jsonError "url is required" none⟩, [], presets, none⟩
  | some url =>
    if url = "" then ⟨⟨400, none, .jsonError "url is required" none⟩, [], presets, none⟩
    else
      let pdfOptionsQuery := q.pdf_option.getD defaultName
      match env.navigate url with
      | .error e =>
          ⟨⟨500, none, .jsonError e (some url)⟩, [.lease, .goto url, .release],
           presets, none⟩
      | .ok _ =>
        let base := getPDFOptions presets defaultName pdfOptionsQuery
        match maybeInline env q.header with
        | (.error e, hevs) =>
            ⟨⟨500, none, .jsonError e (some url)⟩,
             .lease :: .goto url :: .resolveOptions pdfOptionsQuery :: (hevs ++ [.release]),
             presets, none⟩
        | (.ok hTpl, hevs) =>
          let opts1 := applyHeader base hTpl
          match maybeInline env q.footer with
          | (.error e, fevs) =>
              ⟨⟨500, none, .jsonError e (some url)⟩,
               .lease :: .goto url :: .resolveOptions pdfOptionsQuery ::
                 (hevs ++ fevs ++ [.release]),
               presets, none⟩
          | (.ok fTpl, fevs) =>
            let opts2 := applyFooter opts1 fTpl
            match env.pdf opts2 with
            | .error e =>
                ⟨⟨500, none, .jsonError e (some url)⟩,
                 .lease :: .goto url :: .resolveOptions pdfOptionsQuery ::
                   (hevs ++ fevs ++ [.renderPdf, .release]),
                 presets, some opts2⟩
            | .ok buffer =>
                ⟨⟨200, some (createPDFHttpHeader buffer), .pdf buffer⟩,
                 .lease :: .goto url :: .resolveOptions pdfOptionsQuery ::
                   (hevs ++ fevs ++ [.renderPdf, .release]),
                 presets, some opts2⟩

/-- Option resolution of the POST handler (app.ts lines 194-205): resolve the
preset, then assign present-and-non-empty header/footer strings verbatim as
templates, setting `displayHeaderFooter` — no inlining on this path. -/
def resolvePostOptions (presets : List (String × PDFOptions)) (defaultName : String)
    (b : PostBody) : PDFOptions :=
  let base := getPDFOptions presets defaultName (b.pdf_option.getD defaultName)
  let headerS := b.header.getD ""
  let footerS := b.footer.getD ""
  let opts1 :=
    if headerS = "" then base
    else { base with displayHeaderFooter := some true, headerTemplate := some headerS }
  if footerS = "" then opts1
  else { opts1 with displayHeaderFooter := some true, footerTemplate := some footerS }

/-- The `POST /` handler (app.ts lines 179-219).

Validation (missing body, missing/empty `html`) answers 400 before any
effect. Option resolution and the verbatim header/footer assignment happen
before the `runOnPage` job; the job sets the page content (DOM-loaded wait)
and renders. A thrown error is caught and answered as 500 with a JSON body
carrying only the error (no `url` field on this path). -/
def handlePost (env : Env) (presets : List (String × PDFOptions)) (defaultName : String)
    (body : Option PostBody) : HandlerResult :=
  match body with
  | none => ⟨⟨400, none, .jsonError "request body is empty" none⟩, [], presets, none⟩
  | some b =>
    let html := b.html.getD ""
    if html = "" then
      ⟨⟨400, none, .jsonError "html is required" none⟩, [], presets, none⟩
    else
      let pdfOptionsQuery := b.pdf_option.getD defaultName
      let opts2 := resolvePostOptions presets defaultName b
      match env.setContent html with
      | .error e =>
          ⟨⟨500, none, .jsonError e none⟩,
           [.resolveOptions pdfOptionsQuery, .lease, .setContent, .release],
           presets, none⟩
      | .ok _ =>
        match env.pdf opts2 with
        | .error e =>
            ⟨⟨500, none, .jsonError e none⟩,
             [.resolveOptions pdfOptionsQuery, .lease, .setContent, .renderPdf, .release],
             presets, some opts2⟩
        | .ok buffer =>
            ⟨⟨200, some (createPDFHttpHeader buffer), .pdf buffer⟩,
             [.resolveOptions pdfOptionsQuery, .lease, .setContent, .renderPdf, .release],
             presets, some opts2⟩

/-! ### Trace-shape helpers and concrete example fixtures -/

theorem getImageBase64_events (env : Env) (u : String) :
    (getImageBase64 env u).2 = [Event.fetch u] := by
  unfold getImageBase64
  cases env.fetch u <;> rfl

theorem inlineFragment_events (env : Env) (s : String) :
    (inlineFragment env s).2 = [] ∨ ∃ u, (inlineFragment env s).2 = [Event.fetch u] := by
  cases himg : imgAttrs (env.parse s) with
  | nil => exact Or.inl (by simp [inlineFragment, himg])
  | cons a rest =>
      cases ha : a.lookup "src" with
      | none => exact Or.inl (by simp [inlineFragment, himg, ha])
      | some imgUrl =>
          refine Or.inr ⟨imgUrl, ?_⟩
          cases hr : (getImageBase64 env imgUrl).1 <;>
            simp [inlineFragment, himg, ha, hr, getImageBase64_events env imgUrl]

theorem maybeInline_events (env : Env) (frag : Option String) :
    (maybeInline env frag).2 = [] ∨ ∃ u, (maybeInline env frag).2 = [Event.fetch u] := by
  cases frag with
  | none => exact Or.inl rfl
  | some s =>
      by_cases hs : s = ""
      · exact Or.inl (by simp [maybeInline, hs])
      · rcases hres : inlineFragment env s with ⟨r, evs⟩
        have h := inlineFragment_events env s
        rw [hres] at h
        cases r with
        | ok t => simpa [maybeInline, hs, hres] using h
        | error e => simpa [maybeInline, hs, hres] using h

/-- The trace property asserted by the C2 claim: no image fetch happens at or
after the lease of a rendering context (all inlining precedes job
submission). -/
def noFetchInsideJob (tr : List Event) : Bool :=
  !((tr.dropWhile (fun e => !isLease e)).any isFetch)

/-- No image fetch happens before the lease of the rendering context. -/
def noFetchBeforeLease (tr : List Event) : Bool :=
  !((tr.takeWhile (fun e => !isLease e)).any isFetch)

/-- No image fetch happens before the navigation (`page.goto`). -/
def noFetchBeforeNav (tr : List Event) : Bool :=
  !((tr.takeWhile (fun e => !isGoto e)).any isFetch)

/-- No image fetch happens once the PDF render has started. -/
def noFetchAfterRender (tr : List Event) : Bool :=
  !((tr.dropWhile (fun e => !isRender e)).any isFetch)

/-- No option resolution happens before the navigation (`page.goto`). -/
def noResolveBeforeNav (tr : List Event) : Bool :=
  !((tr.takeWhile (fun e => !isGoto e)).any isResolve)

/-- Example image URL used by the concrete fixtures. -/
def imgUrlEx : String := "http://assets.example/logo.png"

/-- Example header fragment with one image element. -/
def imgFragEx : String := "<img src=px>"

/-- The parsed document of `imgFragEx`. -/
def imgDocEx : List HtmlNode := [HtmlNode.img [("src", imgUrlEx)]]

/-- Example header fragment whose single image element has no `src`. -/
def noSrcFragEx : String := "<img>"

/-- Example header fragment with two image elements, each with a `src`. -/
def twoImgFragEx : String := "<img src=px><img src=py>"

/-- The parsed document of `twoImgFragEx`. -/
def twoImgDocEx : List HtmlNode :=
  [HtmlNode.img [("src", imgUrlEx)],
   HtmlNode.img [("src", "http://assets.example/second.png")]]

/-- Bytes served at `imgUrlEx` (PNG signature prefix). -/
def pngBytesEx : List Nat := [137, 80, 78, 71]

/-- A concrete environment for witnesses: the parser recognizes the two
example fragments, the network serves `imgUrlEx`, navigation and content
setting succeed, and rendering produces the bytes of `%PDF`. -/
def envEx : Env :=
  { parse := fun s =>
      if s = imgFragEx then imgDocEx
      else if s = noSrcFragEx then [HtmlNode.img []]
      else if s = twoImgFragEx then twoImgDocEx
      else [HtmlNode.text s]
    fetch := fun u => if u = imgUrlEx then .ok pngBytesEx else .error "ENOTFOUND"
    navigate := fun _ => .ok ()
    setContent := fun _ => .ok ()
    pdf := fun _ => .ok [37, 80, 68, 70] }

/-- A concrete failing environment: every external operation fails. -/
def envFailEx : Env :=
  { parse := fun s => [HtmlNode.text s]
    fetch := fun _ => .error "ENOTFOUND"
    navigate := fun _ => .error "net::ERR_NAME_NOT_RESOLVED"
    setContent := fun _ => .error "setContent failed"
    pdf := fun _ => .error "pdf failed" }

/-- A concrete preset table (configured format `a4`, portrait, margin `1cm`). -/
def presetsEx : List (String × PDFOptions) := presetPDFOptions "a4" false "1cm"

/-! ### Claims about the Template Image Inliner -/

/-- **C3**: for every template fragment containing exactly one image element
whose source URL serves byte sequence `B`, inlining returns HTML whose image
source attribute is a `data:image/png;base64,<payload>` URI where
base64-decoding the payload yields exactly `B` — and the one fetch performed
is of that source URL. -/
theorem C3_single_image_inlined (env : Env) (frag : String) (a : List (String × String))
    (u : String) (B : List Nat)
    (himg : imgAttrs (env.parse frag) = [a])
    (hsrc : a.lookup "src" = some u)
    (hfetch : env.fetch u = Except.ok B)
    (hbytes : ∀ b ∈ B, b < 256) :
    inlineFragment env frag
      = (.ok (serializeDoc (setImgSrcAll (env.parse frag) (dataUri B))), [.fetch u]) ∧
    imgSrcList (setImgSrcAll (env.parse frag) (dataUri B)) = [some (dataUri B)] ∧
    base64DecodeString (base64String B) = B := by
  have hget1 : (getImageBase64 env u).1 = .ok (base64String B) := by
    simp [getImageBase64, hfetch]
  refine ⟨?_, ?_, base64String_round_trip B hbytes⟩
  · simp [inlineFragment, himg, hsrc, hget1, getImageBase64_events, dataUri]
  · rw [imgSrcList_setImgSrcAll, himg]
    rfl

/-- Witness for C3 at a concrete fragment, environment and byte buffer. -/
theorem C3_witness :
    imgAttrs (envEx.parse imgFragEx) = [[("src", imgUrlEx)]] ∧
    ([("src", imgUrlEx)].lookup "src" = some imgUrlEx) ∧
    envEx.fetch imgUrlEx = Except.ok pngBytesEx ∧
    (∀ b ∈ pngBytesEx, b < 256) ∧
    (inlineFragment envEx imgFragEx
      = (.ok (serializeDoc (setImgSrcAll (envEx.parse imgFragEx) (dataUri pngBytesEx))),
         [.fetch imgUrlEx]) ∧
     imgSrcList (setImgSrcAll (envEx.parse imgFragEx) (dataUri pngBytesEx))
       = [some (dataUri pngBytesEx)] ∧
     base64DecodeString (base64String pngBytesEx) = pngBytesEx) :=
  ⟨by decide, by decide, by rfl, by decide,
   C3_single_image_inlined envEx imgFragEx [("src", imgUrlEx)] imgUrlEx pngBytesEx
     (by decide) (by decide) (by rfl) (by decide)⟩

/-- **C4**: for a template fragment containing zero image elements, inlining
performs no network access (empty event trace) and returns the parsed
fragment serialized back to text, unchanged in content. -/
theorem C4_no_images_unchanged (env : Env) (frag : String)
    (h : imgAttrs (env.parse frag) = []) :
    inlineFragment env frag = (.ok (serializeDoc (env.parse frag)), []) := by
  simp [inlineFragment, h]

/-- Witness for C4 at a concrete image-free fragment. -/
theorem C4_witness :
    imgAttrs (envEx.parse "<p>hello</p>") = [] ∧
    inlineFragment envEx "<p>hello</p>"
      = (.ok (serializeDoc (envEx.parse "<p>hello</p>")), []) :=
  ⟨by decide, C4_no_images_unchanged envEx "<p>hello</p>" (by decide)⟩

/-- **C9**: for a fragment with `n ≥ 1` image elements each carrying a source
attribute, exactly one HTTP fetch is performed — of the first image element's
source URL — and the resulting data URI is written to the source attribute of
all `n` image elements. -/
theorem C9_one_fetch_all_imgs (env : Env) (frag : String) (a : List (String × String))
    (rest : List (List (String × String))) (u : String) (B : List Nat)
    (himg : imgAttrs (env.parse frag) = a :: rest)
    (_hall : ∀ x ∈ a :: rest, (x.lookup "src").isSome = true)
    (hsrc : a.lookup "src" = some u)
    (hfetch : env.fetch u = Except.ok B) :
    (inlineFragment env frag).2 = [.fetch u] ∧
    (inlineFragment env frag).2.countP isFetch = 1 ∧
    inlineFragment env frag
      = (.ok (serializeDoc (setImgSrcAll (env.parse frag) (dataUri B))), [.fetch u]) ∧
    imgSrcList (setImgSrcAll (env.parse frag) (dataUri B))
      = List.replicate (a :: rest).length (some (dataUri B)) := by
  have hget1 : (getImageBase64 env u).1 = .ok (base64String B) := by
    simp [getImageBase64, hfetch]
  have hmain : inlineFragment env frag
      = (.ok (serializeDoc (setImgSrcAll (env.parse frag) (dataUri B))), [.fetch u]) := by
    simp [inlineFragment, himg, hsrc, hget1, getImageBase64_events, dataUri]
  refine ⟨by rw [hmain], ?_, hmain, ?_⟩
  · rw [hmain]
    simp [List.countP_cons, isFetch]
  · rw [imgSrcList_setImgSrcAll, himg]

/-- Witness for C9 at a concrete two-image fragment. -/
theorem C9_witness :
    imgAttrs (envEx.parse twoImgFragEx)
      = [("src", imgUrlEx)] :: [[("src", "http://assets.example/second.png")]] ∧
    (∀ x ∈ [("src", imgUrlEx)] :: [[("src", "http://assets.example/second.png")]],
       (x.lookup "src").isSome = true) ∧
    ([("src", imgUrlEx)].lookup "src" = some imgUrlEx) ∧
    envEx.fetch imgUrlEx = Except.ok pngBytesEx ∧
    ((inlineFragment envEx twoImgFragEx).2 = [.fetch imgUrlEx] ∧
     (inlineFragment envEx twoImgFragEx).2.countP isFetch = 1 ∧
     inlineFragment envEx twoImgFragEx
       = (.ok (serializeDoc (setImgSrcAll (envEx.parse twoImgFragEx)
            (dataUri pngBytesEx))), [.fetch imgUrlEx]) ∧
     imgSrcList (setImgSrcAll (envEx.parse twoImgFragEx) (dataUri pngBytesEx))
       = List.replicate
           ([("src", imgUrlEx)] :: [[("src", "http://assets.example/second.png")]]).length
           (some (dataUri pngBytesEx))) :=
  ⟨by decide, by decide, by decide, by rfl,
   C9_one_fetch_all_imgs envEx twoImgFragEx [("src", imgUrlEx)]
     [[("src", "http://assets.example/second.png")]] imgUrlEx pngBytesEx
     (by decide) (by decide) (by decide) (by rfl)⟩

/-! ### Claims about the request handlers -/

/-- **C1**: for every request (by-URL or by-HTML), the preset registry's
stored base records are unchanged after the request completes; per-request
customization operates on a copy of the preset's record (immutable values in
this embedding; the resolution plugin's copy semantics is modelled from the
spec, see `getPDFOptions`), never mutating the stored table. -/
theorem C1_preset_registry_immutable (env : Env) (presets : List (String × PDFOptions))
    (d : String) (q : GetQuerystring) (body : Option PostBody) :
    (handleGet env presets d q).presetsAfter = presets ∧
    (handlePost env presets d body).presetsAfter = presets := by
  constructor
  · simp only [handleGet]
    repeat' split
    all_goals rfl
  · simp only [handlePost]
    repeat' split
    all_goals rfl

/-- **C5**: for every by-URL request that passes validation, the outcome is
either a success (200 with a PDF body) or a 500 whose JSON body carries the
failing URL — never a partial or garbled binary PDF on failure. -/
theorem C5_get_failure_json_500 (env : Env) (presets : List (String × PDFOptions))
    (d : String) (q : GetQuerystring) (url : String)
    (hurl : q.url = some url) (hne : url ≠ "") :
    ((handleGet env presets d q).resp.status = 200 ∧
       ∃ b, (handleGet env presets d q).resp.body = RespBody.pdf b) ∨
    ((handleGet env presets d q).resp.status = 500 ∧
       ∃ e, (handleGet env presets d q).resp.body = RespBody.jsonError e (some url)) := by
  simp only [handleGet, hurl, if_neg hne]
  repeat' split
  all_goals
    first
      | exact Or.inl ⟨rfl, _, rfl⟩
      | exact Or.inr ⟨rfl, _, rfl⟩

/-- Witness for C5: a concrete request through the all-failing environment
lands in the 500-with-URL branch. -/
theorem C5_witness :
    ({ url := some "https://example.com" } : GetQuerystring).url
        = some "https://example.com" ∧
    "https://example.com" ≠ "" ∧
    (((handleGet envFailEx presetsEx "DEFAULT"
          { url := some "https://example.com" }).resp.status = 200 ∧
        ∃ b, (handleGet envFailEx presetsEx "DEFAULT"
          { url := some "https://example.com" }).resp.body = RespBody.pdf b) ∨
     ((handleGet envFailEx presetsEx "DEFAULT"
          { url := some "https://example.com" }).resp.status = 500 ∧
        ∃ e, (handleGet envFailEx presetsEx "DEFAULT"
          { url := some "https://example.com" }).resp.body
            = RespBody.jsonError e (some "https://example.com"))) :=
  ⟨rfl, by decide,
   C5_get_failure_json_500 envFailEx presetsEx "DEFAULT"
     { url := some "https://example.com" } "https://example.com" rfl (by decide)⟩

/-- **C6**: validation errors are reported before any rendering context is
leased — `GET /` with a missing or empty `url` and `POST /` with an absent
body or an absent/empty `html` answer 400 with an empty effect trace (in
particular, no lease). -/
theorem C6_validation_before_lease (env : Env) (presets : List (String × PDFOptions))
    (d : String) (q : GetQuerystring) (body : Option PostBody)
    (hq : q.url = none ∨ q.url = some "")
    (hb : body = none ∨ ∃ b, body = some b ∧ (b.html = none ∨ b.html = some "")) :
    ((handleGet env presets d q).resp.status = 400 ∧
     (handleGet env presets d q).events = [] ∧
     (handleGet env presets d q).events.any isLease = false) ∧
    ((handlePost env presets d body).resp.status = 400 ∧
     (handlePost env presets d body).events = [] ∧
     (handlePost env presets d body).events.any isLease = false) := by
  constructor
  · rcases hq with h | h <;> simp [handleGet, h]
  · rcases hb with h | ⟨b, hbb, hh⟩
    · simp [handlePost, h]
    · rcases hh with h2 | h2 <;> simp [handlePost, hbb, h2]

/-- Witness for C6: both invalid shapes at once (empty url, body without
html). -/
theorem C6_witness :
    (({ url := some "" } : GetQuerystring).url = none ∨
       ({ url := some "" } : GetQuerystring).url = some "") ∧
    ((some {} : Option PostBody) = none ∨
       ∃ b, (some {} : Option PostBody) = some b ∧ (b.html = none ∨ b.html = some "")) ∧
    (((handleGet envEx presetsEx "DEFAULT" { url := some "" }).resp.status = 400 ∧
      (handleGet envEx presetsEx "DEFAULT" { url := some "" }).events = [] ∧
      (handleGet envEx presetsEx "DEFAULT" { url := some "" }).events.any isLease
        = false) ∧
     ((handlePost envEx presetsEx "DEFAULT" (some {})).resp.status = 400 ∧
      (handlePost envEx presetsEx "DEFAULT" (some {})).events = [] ∧
      (handlePost envEx presetsEx "DEFAULT" (some {})).events.any isLease = false)) :=
  ⟨Or.inr rfl, Or.inr ⟨{}, rfl, Or.inl rfl⟩,
   C6_validation_before_lease envEx presetsEx "DEFAULT" { url := some "" } (some {})
     (Or.inr rfl) (Or.inr ⟨{}, rfl, Or.inl rfl⟩)⟩

/-- **C7**: on the by-HTML path, present-and-non-empty header/footer strings
are assigned verbatim as templates with `displayHeaderFooter` set to `true`;
when neither is supplied (absent or empty) the resolved options are exactly
the preset's record; and the POST handler performs no image fetch at all. -/
theorem C7_post_verbatim (env : Env) (presets : List (String × PDFOptions))
    (d : String) (b : PostBody) (h : String)
    (hhtml : b.html = some h) (hne : h ≠ "") :
    (∀ hs, b.header = some hs → hs ≠ "" →
       (resolvePostOptions presets d b).headerTemplate = some hs ∧
       (resolvePostOptions presets d b).displayHeaderFooter = some true) ∧
    (∀ fs, b.footer = some fs → fs ≠ "" →
       (resolvePostOptions presets d b).footerTemplate = some fs ∧
       (resolvePostOptions presets d b).displayHeaderFooter = some true) ∧
    (b.header.getD "" = "" → b.footer.getD "" = "" →
       resolvePostOptions presets d b = getPDFOptions presets d (b.pdf_option.getD d)) ∧
    (handlePost env presets d (some b)).events.any isFetch = false := by
  refine ⟨?_, ?_, ?_, ?_⟩
  · intro hs hhs hnes
    by_cases hf : b.footer.getD "" = "" <;>
      simp [resolvePostOptions, hhs, hnes, hf]
  · intro fs hfs hnefs
    by_cases hh2 : b.header.getD "" = "" <;>
      simp [resolvePostOptions, hfs, hnefs, hh2]
  · intro h1 h2
    simp [resolvePostOptions, h1, h2]
  · cases hsc : env.setContent h with
    | error e => simp [handlePost, hhtml, hne, hsc, isFetch]
    | ok _ =>
        cases hp : env.pdf (resolvePostOptions presets d b) <;>
          simp [handlePost, hhtml, hne, hsc, hp, isFetch]

/-- Concrete POST body for witnesses: html plus header and footer strings. -/
def postBodyEx : PostBody :=
  { html := some "<p>hi</p>", header := some "<div>H</div>",
    footer := some "<div>F</div>" }

/-- Witness for C7 at a concrete POST body with header and footer. -/
theorem C7_witness :
    postBodyEx.html = some "<p>hi</p>" ∧
    "<p>hi</p>" ≠ "" ∧
    ((∀ hs, postBodyEx.header = some hs → hs ≠ "" →
       (resolvePostOptions presetsEx "DEFAULT" postBodyEx).headerTemplate = some hs ∧
       (resolvePostOptions presetsEx "DEFAULT" postBodyEx).displayHeaderFooter
         = some true) ∧
     (∀ fs, postBodyEx.footer = some fs → fs ≠ "" →
       (resolvePostOptions presetsEx "DEFAULT" postBodyEx).footerTemplate = some fs ∧
       (resolvePostOptions presetsEx "DEFAULT" postBodyEx).displayHeaderFooter
         = some true) ∧
     (postBodyEx.header.getD "" = "" → postBodyEx.footer.getD "" = "" →
       resolvePostOptions presetsEx "DEFAULT" postBodyEx
         = getPDFOptions presetsEx "DEFAULT" (postBodyEx.pdf_option.getD "DEFAULT")) ∧
     (handlePost envEx presetsEx "DEFAULT" (some postBodyEx)).events.any isFetch
       = false) :=
  ⟨rfl, by decide,
   C7_post_verbatim envEx presetsEx "DEFAULT" postBodyEx "<p>hi</p>" rfl (by decide)⟩

/-- **C8**: every successful render (GET or POST) answers 200 with the
headers of `createPDFHttpHeader`: content type `application/pdf`, content
length equal to the PDF byte length, `Cache-Control:
no-cache, no-store, must-revalidate`, `Pragma: no-cache`, and the
already-expired `Expires: 0`. -/
theorem C8_success_response_headers (env : Env) (presets : List (String × PDFOptions))
    (d : String) (q : GetQuerystring) (body : Option PostBody) :
    ((handleGet env presets d q).resp.status = 200 →
       ∃ buf, (handleGet env presets d q).resp
         = ⟨200, some (createPDFHttpHeader buf), RespBody.pdf buf⟩) ∧
    ((handlePost env presets d body).resp.status = 200 →
       ∃ buf, (handlePost env presets d body).resp
         = ⟨200, some (createPDFHttpHeader buf), RespBody.pdf buf⟩) ∧
    (∀ buf, createPDFHttpHeader buf
      = { contentType := "application/pdf", contentLength := buf.length,
          cacheControl := "no-cache, no-store, must-revalidate",
          pragma := "no-cache", expires := 0 }) := by
  refine ⟨?_, ?_, fun _ => rfl⟩
  · simp only [handleGet]
    repeat' split
    all_goals intro hst
    all_goals first | exact ⟨_, rfl⟩ | simp at hst
  · simp only [handlePost]
    repeat' split
    all_goals intro hst
    all_goals first | exact ⟨_, rfl⟩ | simp at hst

/-- Witness for C8: a successful GET and a successful POST through the
concrete environment. -/
theorem C8_witness :
    (handleGet envEx presetsEx "DEFAULT" { url := some "https://example.com" }).resp
      = ⟨200, some (createPDFHttpHeader [37, 80, 68, 70]), RespBody.pdf [37, 80, 68, 70]⟩ ∧
    (handlePost envEx presetsEx "DEFAULT" (some { html := some "<p>hi</p>" })).resp
      = ⟨200, some (createPDFHttpHeader [37, 80, 68, 70]), RespBody.pdf [37, 80, 68, 70]⟩ := by
  have h := C8_success_response_headers envEx presetsEx "DEFAULT"
    { url := some "https://example.com" } (some { html := some "<p>hi</p>" })
  obtain ⟨bufG, hG⟩ := h.1 (by decide)
  obtain ⟨bufP, hP⟩ := h.2.1 (by decide)
  constructor
  · rw [hG]
    have : bufG = [37, 80, 68, 70] := by
      have := hG ▸ (by decide :
        (handleGet envEx presetsEx "DEFAULT"
          { url := some "https://example.com" }).resp.body
          = RespBody.pdf [37, 80, 68, 70])
      simpa using this
    rw [this]
  · rw [hP]
    have : bufP = [37, 80, 68, 70] := by
      have := hP ▸ (by decide :
        (handlePost envEx presetsEx "DEFAULT"
          (some { html := some "<p>hi</p>" })).resp.body
          = RespBody.pdf [37, 80, 68, 70])
      simpa using this
    rw [this]

/-- **C10**: a by-URL request whose header fragment has image elements but
whose first image element carries no `src` attribute performs no fetch,
modifies no image source, still assigns the serialized fragment as the
header template, and proceeds to a successful render. -/
theorem C10_first_img_no_src (env : Env) (presets : List (String × PDFOptions))
    (d : String) (q : GetQuerystring) (url s : String)
    (a : List (String × String)) (rest : List (List (String × String))) (buf : List Nat)
    (hurl : q.url = some url) (hne : url ≠ "")
    (hh : q.header = some s) (hs : s ≠ "") (hf : q.footer = none)
    (himg : imgAttrs (env.parse s) = a :: rest)
    (hnosrc : a.lookup "src" = none)
    (hnav : env.navigate url = Except.ok ())
    (hpdf : ∀ o, env.pdf o = Except.ok buf) :
    (handleGet env presets d q).resp.status = 200 ∧
    (handleGet env presets d q).events.any isFetch = false ∧
    (handleGet env presets d q).optsUsed
      = some (applyHeader (getPDFOptions presets d (q.pdf_option.getD d))
          (some (serializeDoc (env.parse s)))) := by
  have hinl : inlineFragment env s = (.ok (serializeDoc (env.parse s)), []) := by
    simp [inlineFragment, himg, hnosrc]
  have hmi : maybeInline env q.header
      = (.ok (some (serializeDoc (env.parse s))), []) := by
    simp [maybeInline, hh, hs, hinl]
  have hmf : maybeInline env q.footer = (.ok none, []) := by
    simp [maybeInline, hf]
  simp [handleGet, hurl, hne, hnav, hmi, hmf, hpdf, applyFooter, isFetch]

/-- Witness for C10: the `<img>`-without-src fragment through the concrete
environment. -/
theorem C10_witness :
    ({ url := some "https://example.com", header := some noSrcFragEx }
       : GetQuerystring).url = some "https://example.com" ∧
    "https://example.com" ≠ "" ∧
    ({ url := some "https://example.com", header := some noSrcFragEx }
       : GetQuerystring).header = some noSrcFragEx ∧
    noSrcFragEx ≠ "" ∧
    imgAttrs (envEx.parse noSrcFragEx) = [] :: [] ∧
    (([] : List (String × String)).lookup "src" = none) ∧
    envEx.navigate "https://example.com" = Except.ok () ∧
    (∀ o, envEx.pdf o = Except.ok [37, 80, 68, 70]) ∧
    ((handleGet envEx presetsEx "DEFAULT"
        { url := some "https://example.com", header := some noSrcFragEx }).resp.status
        = 200 ∧
     (handleGet envEx presetsEx "DEFAULT"
        { url := some "https://example.com", header := some noSrcFragEx }).events.any
         isFetch = false ∧
     (handleGet envEx presetsEx "DEFAULT"
        { url := some "https://example.com", header := some noSrcFragEx }).optsUsed
       = some (applyHeader
           (getPDFOptions presetsEx "DEFAULT"
             (({ url := some "https://example.com", header := some noSrcFragEx }
                : GetQuerystring).pdf_option.getD "DEFAULT"))
           (some (serializeDoc (envEx.parse noSrcFragEx))))) :=
  ⟨rfl, by decide, rfl, by decide, by decide, by decide, rfl, fun _ => rfl,
   C10_first_img_no_src envEx presetsEx "DEFAULT"
     { url := some "https://example.com", header := some noSrcFragEx }
     "https://example.com" noSrcFragEx [] [] [37, 80, 68, 70]
     rfl (by decide) rfl (by decide) rfl (by decide) (by decide) rfl (fun _ => rfl)⟩

/-- **C2 counterexample**: a concrete by-URL request supplying a header
fragment with an image. The trace shows the lease and the navigation
happening first and the image fetch in the middle of the leased job
(before `page.pdf`), so the claimed property — all inlining completed before
the job is submitted to the pool, navigation only after the templates are
final — is false on the code. -/
theorem C2_counterexample :
    (handleGet envEx presetsEx "DEFAULT"
       { url := some "https://example.com", header := some imgFragEx }).events
      = [.lease, .goto "https://example.com", .resolveOptions "DEFAULT",
         .fetch imgUrlEx, .renderPdf, .release] ∧
    noFetchInsideJob (handleGet envEx presetsEx "DEFAULT"
      { url := some "https://example.com", header := some imgFragEx }).events
      = false := by
  constructor <;> decide

/-- **C2 (amended)**: for every by-URL request, option resolution and
header/footer image inlining happen inside the leased rendering context's
job, after the navigation to the target URL and before the PDF render is
requested: no fetch precedes the lease or the navigation, no fetch follows
the start of the render, and no option resolution precedes the navigation. -/
theorem C2_amended_inlining_inside_job (env : Env) (presets : List (String × PDFOptions))
    (d : String) (q : GetQuerystring) :
    noFetchBeforeLease (handleGet env presets d q).events = true ∧
    noFetchBeforeNav (handleGet env presets d q).events = true ∧
    noFetchAfterRender (handleGet env presets d q).events = true ∧
    noResolveBeforeNav (handleGet env presets d q).events = true := by
  cases hu : q.url with
  | none =>
      simp [handleGet, hu, noFetchBeforeLease, noFetchBeforeNav, noFetchAfterRender,
        noResolveBeforeNav]
  | some url =>
    by_cases hne : url = ""
    · simp [handleGet, hu, hne, noFetchBeforeLease, noFetchBeforeNav, noFetchAfterRender,
        noResolveBeforeNav]
    · cases hnav : env.navigate url with
      | error e =>
          simp [handleGet, hu, hne, hnav, noFetchBeforeLease, noFetchBeforeNav,
            noFetchAfterRender, noResolveBeforeNav, isLease, isGoto, isFetch, isRender,
            isResolve]
      | ok u' =>
        rcases hmh : maybeInline env q.header with ⟨rh, hevs⟩
        have hhs : hevs = [] ∨ ∃ w, hevs = [Event.fetch w] := by
          have hx := maybeInline_events env q.header
          rw [hmh] at hx
          exact hx
        cases rh with
        | error e =>
            rcases hhs with h1 | ⟨w, h1⟩ <;> subst h1 <;>
              simp [handleGet, hu, hne, hnav, hmh, noFetchBeforeLease, noFetchBeforeNav,
                noFetchAfterRender, noResolveBeforeNav, isLease, isGoto, isFetch,
                isRender, isResolve]
        | ok hTpl =>
          rcases hmf : maybeInline env q.footer with ⟨rf, fevs⟩
          have hfs : fevs = [] ∨ ∃ w, fevs = [Event.fetch w] := by
            have hx := maybeInline_events env q.footer
            rw [hmf] at hx
            exact hx
          cases rf with
          | error e =>
              rcases hhs with h1 | ⟨w1, h1⟩ <;> rcases hfs with h2 | ⟨w2, h2⟩ <;>
                subst h1 <;> subst h2 <;>
                simp [handleGet, hu, hne, hnav, hmh, hmf, noFetchBeforeLease,
                  noFetchBeforeNav, noFetchAfterRender, noResolveBeforeNav, isLease,
                  isGoto, isFetch, isRender, isResolve]
          | ok fTpl =>
              rcases hhs with h1 | ⟨w1, h1⟩ <;> rcases hfs with h2 | ⟨w2, h2⟩ <;>
                subst h1 <;> subst h2 <;>
                cases hpdf : env.pdf (applyFooter (applyHeader
                    (getPDFOptions presets d (q.pdf_option.getD d)) hTpl) fTpl) <;>
                simp [handleGet, hu, hne, hnav, hmh, hmf, hpdf, noFetchBeforeLease,
                  noFetchBeforeNav, noFetchAfterRender, noResolveBeforeNav, isLease,
                  isGoto, isFetch, isRender, isResolve]
